import Mathlib

set_option autoImplicit false

/-!
Verification of the order lifecycle service (`src/server/polar/order/service.py`).

The Python service is shallowly embedded: ORM rows become Lean structures,
monetary amounts are integers in minor currency units, external collaborators
(Stripe client, repositories, ledger lookups) are functions bundled in an
`Env` record, side effects (webhooks, enqueued jobs, notifications, domain
events) are values of an `Effect` list returned by each operation, and Python
exceptions become `Except OrderErr` results.
-/

namespace Polar

abbrev Metadata := List (String × String)

inductive OrderStatus where
  | pending
  | paid
deriving DecidableEq, Repr

inductive OrderBillingReason where
  | purchase
  | subscription_cycle
  | subscription_create
  | subscription_update
deriving DecidableEq, Repr

structure Address where
  country : Option String
deriving DecidableEq, Repr

structure Customer where
  id : Nat
  email : String
  billing_name : Option String
  billing_address : Option Address
  tax_id : Option String
  stripe_customer_id : Option String
deriving DecidableEq, Repr

/-- Product prices as far as this service inspects them: `is_custom_price`
distinguishes pay-what-you-want prices; fixed prices carry their amount. -/
inductive ProductPriceModel where
  | custom (id : String)
  | fixed (id : String) (price_amount : Int)
  | metered (id : String)
deriving DecidableEq, Repr

structure Product where
  id : Nat
  organization_id : Nat
  name : String
  is_recurring : Bool
  prices : List ProductPriceModel
deriving DecidableEq, Repr

structure Organization where
  id : Nat
  slug : String
  name : String
deriving DecidableEq, Repr

structure DiscountModel where
  id : String
  name : String
deriving DecidableEq, Repr

structure OrderItem where
  label : String
  amount : Int
  tax_amount : Int
  proration : Bool
  product_price_id : Option String
deriving DecidableEq, Repr

structure Checkout where
  id : Nat
  client_secret : String
  organization : Organization
  product : Product
  customer : Option Customer
  amount : Int
  currency : String
  discount : Option DiscountModel
  discount_amount : Int
  tax_amount : Option Int
  tax_processor_id : Option String
  user_metadata : Metadata
  custom_field_data : Metadata
deriving DecidableEq, Repr

structure SubscriptionMeterModel where
  meter_id : String
deriving DecidableEq, Repr

structure Subscription where
  id : Nat
  stripe_subscription_id : String
  organization : Organization
  product : Product
  customer : Customer
  meters : List SubscriptionMeterModel
  user_metadata : Metadata
  custom_field_data : Metadata
deriving DecidableEq, Repr

structure Order where
  id : Nat
  status : OrderStatus
  subtotal_amount : Int
  discount_amount : Int
  tax_amount : Int
  currency : String
  billing_reason : OrderBillingReason
  billing_name : Option String
  billing_address : Option Address
  stripe_invoice_id : Option String
  taxability_reason : Option String
  tax_id : Option String
  tax_rate : Option String
  tax_transaction_processor_id : Option String
  invoice_number : Nat
  invoice_path : Option String
  customer : Customer
  product : Product
  discount : Option DiscountModel
  subscription_id : Option Nat
  checkout : Option Checkout
  items : List OrderItem
  user_metadata : Metadata
  custom_field_data : Metadata
  created_at : Int
deriving DecidableEq, Repr

/-- `Order.paid` property: status is `paid`. -/
def Order.paid (o : Order) : Bool :=
  match o.status with
  | OrderStatus.paid => true
  | OrderStatus.pending => false

/-- `order.organization` resolves through the product's owning organization. -/
def Order.organization_id (o : Order) : Nat := o.product.organization_id

/-- Modelled from the spec: `Order.net_amount` (polar.models, not under `src/`):
subtotal minus discount (§3 monetary amounts). -/
def Order.net_amount (o : Order) : Int := o.subtotal_amount - o.discount_amount

/-- Modelled from the spec: `Order.total_amount` (polar.models, not under
`src/`): net amount plus tax (§3 monetary amounts). -/
def Order.total_amount (o : Order) : Int :=
  o.subtotal_amount - o.discount_amount + o.tax_amount

/- Stripe invoice data, as far as the service reads it. Expandable references
are their opaque string ids. -/

structure StripePrice where
  id : String
  metadata : Option Metadata
deriving DecidableEq, Repr

structure StripeTaxAmount where
  amount : Int
  taxability_reason : Option String
  tax_rate : String
deriving DecidableEq, Repr

structure StripeInvoiceLine where
  description : Option String
  amount : Int
  tax_amounts : List StripeTaxAmount
  proration : Bool
  price : Option StripePrice
deriving DecidableEq, Repr

structure StripeCoupon where
  id : String
  metadata : Option Metadata
deriving DecidableEq, Repr

structure StripeDiscount where
  coupon : StripeCoupon
deriving DecidableEq, Repr

/-- A Stripe invoice. `subscription_details` is `none` when the field is
absent, and `some m` carries its (possibly absent) metadata. -/
structure StripeInvoice where
  id : String
  metadata : Option Metadata
  subscription : Option String
  subscription_details : Option (Option Metadata)
  status : String
  charge : Option String
  customer_address : Option Address
  discount : Option StripeDiscount
  lines : List StripeInvoiceLine
  billing_reason : Option String
  total_discount_amounts : Option (List Int)
  tax : Option Int
  total_tax_amounts : List StripeTaxAmount
  subtotal : Int
  currency : String
  created : Int
deriving DecidableEq, Repr

structure PaymentIntentModel where
  latest_charge : Option String
deriving DecidableEq, Repr

/-- A Stripe charge: `payment_method_card_country` is `some c` when
`payment_method_details.card` is present, with `c` the card's country. -/
structure ChargeModel where
  payment_method_card_country : Option (Option String)
deriving DecidableEq, Repr

structure TaxBreakdownEntry where
  taxability_reason : Option String
  tax_rate_details : String
deriving DecidableEq, Repr

structure TaxCalculation where
  tax_amount_exclusive : Int
  tax_breakdown : List TaxBreakdownEntry
deriving DecidableEq, Repr

structure Payment where
  amount : Int
  processor_id : String
deriving DecidableEq, Repr

inductive NotificationType where
  | maintainer_new_product_sale
  | maintainer_create_account
deriving DecidableEq, Repr

inductive WebhookType where
  | order_created
  | order_updated
  | order_paid
deriving DecidableEq, Repr

/-- Observable side effects: webhooks, enqueued jobs, notifications, domain
events, and writes to external collaborators. -/
inductive Effect where
  | webhook (t : WebhookType) (order_id : Nat)
  | enqueueOrderBalance (order_id : Nat) (charge_id : String)
  | enqueueInvoiceGeneration (order_id : Nat)
  | enqueueBenefitsGrants (customer_id : Nat) (product_id : Nat) (order_id : Nat)
  | enqueueBenefitGrantCycles (subscription_id : Nat)
  | discordNotification (order_id : Nat)
  | checkoutEvent (client_secret : String)
  | notifyOrgMembers (org_id : Nat) (t : NotificationType)
  | confirmationEmail (email : String)
  | meterReset (meter_id : String)
  | meterCredited (meter_id : String) (units : Int)
  | updateInvoiceDescriptor (invoice_id : String) (descriptor : String)
  | createStripeTaxTransaction (tax_processor_id : String) (order_id : Nat)
  | feesReversalBalances (balance_transaction_id : Nat)
deriving DecidableEq, Repr

/-- The typed domain errors raised by the service, plus `assertionFailed` for
Python `assert` statements and `keyError` for unguarded dict indexing. -/
inductive OrderErr where
  | recurringProduct (checkout_id : Nat) (product_id : Nat)
  | missingCheckoutCustomer (checkout_id : Nat)
  | notAnOrderInvoice (invoice_id : String)
  | notASubscriptionInvoice (invoice_id : String)
  | orderDoesNotExist (invoice_id : String)
  | discountDoesNotExist (invoice_id : String) (coupon_id : String)
  | checkoutDoesNotExist (invoice_id : String) (checkout_id : String)
  | subscriptionDoesNotExist (invoice_id : String) (stripe_subscription_id : String)
  | alreadyBalancedOrder (order_id : Nat) (payment_transaction_id : Nat)
  | invoiceAlreadyExists (order_id : Nat)
  | notPaidOrder (order_id : Nat)
  | missingInvoiceBillingDetails (order_id : Nat)
  | invoiceDoesNotExist (order_id : Nat)
  | paymentTransactionForChargeDoesNotExist (charge_id : String)
  | validationFailed (fields : List String)
  | assertionFailed
  | keyError (key : String)
deriving DecidableEq, Repr

/-- Explicit `Except` bind, used instead of do-notation so proofs can invert
each step. -/
def bindE {α β : Type} (x : Except OrderErr α) (f : α → Except OrderErr β) :
    Except OrderErr β :=
  match x with
  | Except.error e => Except.error e
  | Except.ok v => f v

def isOkE {α : Type} : Except OrderErr α → Bool
  | Except.ok _ => true
  | Except.error _ => false

/-- Ledger rows touched by balance settlement. -/
inductive TransactionType where
  | payment
  | balance
deriving DecidableEq, Repr

structure Transaction where
  id : Nat
  type : TransactionType
  charge_id : Option String
  amount : Int
  payment_transaction_id : Option Nat
  account_id : Option Nat
  order_id : Option Nat
  payment_customer_id : Option Nat
deriving DecidableEq, Repr

structure HeldBalanceRec where
  amount : Int
  order_id : Nat
  payment_transaction_id : Nat
  organization_id : Option Nat
deriving DecidableEq, Repr

structure AccountRec where
  id : Nat
  organization_id : Nat
deriving DecidableEq, Repr

structure LedgerState where
  transactions : List Transaction
  heldBalances : List HeldBalanceRec
  accounts : List AccountRec
  next_transaction_id : Nat
deriving DecidableEq, Repr

/-- External collaborators and repository lookups, as read-only functions.
The ledger state that balance settlement mutates lives in `LedgerState`
instead. -/
structure Env where
  getOrderByStripeInvoiceId : String → Option Order
  getSubscriptionByStripeId : String → Option Subscription
  getDiscountById : String → Option DiscountModel
  getCheckoutById : String → Option Checkout
  getProductPriceById : String → Option String
  getProductPriceByStripeId : String → Option String
  getCharge : String → ChargeModel
  getTaxRate : String → String
  fromStripeTaxRate : String → Option String
  taxabilityReasonFromStripe : Option String → Int → Option String
  fromStripeTaxRateDetails : String → Option String
  getTaxCalculation : String → TaxCalculation
  getInvoice : String → StripeInvoice
  getPaymentIntent : String → PaymentIntentModel
  getRolloverUnits : Nat → String → Int
  getOrganizationById : Nat → Option Organization
  nextInvoiceNumber : Nat → Nat
  nextOrderId : Nat
  pendingOrderItems : Nat → String → String → List OrderItem
  createTaxTransactionId : String → String
  descriptorMaxLength : Nat

/-! ### Order update with invoice locking (`OrderService.update`) -/

/-- The client-supplied update payload; `set_*` mirrors membership in
`model_fields_set`. -/
structure OrderUpdate where
  set_billing_name : Bool
  billing_name : Option String
  set_billing_address : Bool
  billing_address : Option Address
deriving DecidableEq, Repr

/-- The loop over `invoice_locked_fields` collecting validation errors for
locked fields that are set to a different value. -/
def lockedFieldErrors (o : Order) (u : OrderUpdate) : List String :=
  (if u.set_billing_name = true ∧ u.billing_name ≠ o.billing_name
    then ["billing_name"] else []) ++
  (if u.set_billing_address = true ∧ u.billing_address ≠ o.billing_address
    then ["billing_address"] else [])

/-- `model_dump(exclude_unset=True)` applied through `repository.update`. -/
def applyOrderUpdate (o : Order) (u : OrderUpdate) : Order :=
  let o1 := if u.set_billing_name = true then { o with billing_name := u.billing_name } else o
  if u.set_billing_address = true then { o1 with billing_address := u.billing_address } else o1

/-- `OrderService.send_webhook`: delivery is silently skipped when the
product's owning organization cannot be resolved. -/
def send_webhook (env : Env) (o : Order) (t : WebhookType) : List Effect :=
  match env.getOrganizationById o.product.organization_id with
  | some _ => [Effect.webhook t o.id]
  | none => []

/-- `OrderService.update`: rejects changes to `billing_name`/`billing_address`
once `invoice_path` is set, otherwise applies the update and sends the
`order_updated` webhook. -/
def update (env : Env) (o : Order) (u : OrderUpdate) :
    Except OrderErr (Order × List Effect) :=
  let errors := if o.invoice_path ≠ none then lockedFieldErrors o u else []
  if errors ≠ [] then Except.error (OrderErr.validationFailed errors)
  else
    let o := applyOrderUpdate o u
    Except.ok (o, send_webhook env o WebhookType.order_updated)

/-! ### Invoice document gating (`trigger_invoice_generation`) -/

/-- `OrderService.trigger_invoice_generation`. -/
def trigger_invoice_generation (o : Order) : Except OrderErr (List Effect) :=
  match o.invoice_path with
  | some _ => Except.error (OrderErr.invoiceAlreadyExists o.id)
  | none =>
    if o.paid = false then Except.error (OrderErr.notPaidOrder o.id)
    else if o.billing_name.isNone || o.billing_address.isNone then
      Except.error (OrderErr.missingInvoiceBillingDetails o.id)
    else Except.ok [Effect.enqueueInvoiceGeneration o.id]

/-! ### Transition notifier (`_on_order_created` / `_on_order_updated` /
`_on_order_paid`) -/

/-- `OrderService._on_order_paid`: its opening `assert order.paid` becomes an
`assertionFailed` error; effects are the `order_paid` webhook and, for
subscription-cycle orders, the benefit-grant-cycle job. -/
def _on_order_paid (env : Env) (o : Order) : Except OrderErr (List Effect) :=
  if o.paid = true then
    Except.ok (send_webhook env o WebhookType.order_paid ++
      (match o.subscription_id with
       | some sid =>
         if o.billing_reason = OrderBillingReason.subscription_cycle then
           [Effect.enqueueBenefitGrantCycles sid]
         else []
       | none => []))
  else Except.error OrderErr.assertionFailed

/-- `OrderService._on_order_updated`: `order_updated` webhook, plus the paid
effects only on the non-paid to paid edge. -/
def _on_order_updated (env : Env) (o : Order) (previous_status : OrderStatus) :
    Except OrderErr (List Effect) :=
  if o.status = OrderStatus.paid ∧ previous_status ≠ OrderStatus.paid then
    bindE (_on_order_paid env o)
      (fun p => Except.ok (send_webhook env o WebhookType.order_updated ++ p))
  else Except.ok (send_webhook env o WebhookType.order_updated)

/-- `OrderService._on_order_created`: `order_created` webhook, discord job,
paid effects when already paid at creation, and the checkout-channel event. -/
def _on_order_created (env : Env) (o : Order) : Except OrderErr (List Effect) :=
  bindE (if o.paid = true then _on_order_paid env o else Except.ok [])
    (fun paidEffs =>
      Except.ok ((send_webhook env o WebhookType.order_created ++
        [Effect.discordNotification o.id]) ++ paidEffs ++
        (match o.checkout with
         | some c => [Effect.checkoutEvent c.client_secret]
         | none => [])))

/-! ### Invoice reconciliation: update path (`update_order_from_stripe`) -/

/-- The out-of-band payment-intent fallback of the balance enqueue: reads
`payment_intent_id` from the invoice metadata (Python truthiness), asserts the
payment intent has a latest charge. -/
def payment_intent_balance_step (env : Env) (invoice : StripeInvoice) (o : Order) :
    Except OrderErr (List Effect) :=
  match invoice.metadata with
  | none => Except.ok []
  | some md =>
    match md.lookup "payment_intent_id" with
    | none => Except.ok []
    | some payment_intent_id =>
      if payment_intent_id = "" then Except.ok []
      else
        match (env.getPaymentIntent payment_intent_id).latest_charge with
        | none => Except.error OrderErr.assertionFailed
        | some latest_charge => Except.ok [Effect.enqueueOrderBalance o.id latest_charge]

/-- The balance enqueue of the update path: when the order is now paid, keyed
by the invoice's charge (truthiness check) or the out-of-band payment
intent. -/
def balance_enqueue_step (env : Env) (invoice : StripeInvoice) (o : Order) :
    Except OrderErr (List Effect) :=
  if o.paid = true then
    match invoice.charge with
    | some c =>
      if c = "" then payment_intent_balance_step env invoice o
      else Except.ok [Effect.enqueueOrderBalance o.id c]
    | none => payment_intent_balance_step env invoice o
  else Except.ok []

/-- The status projection of the update path: `paid` when the invoice is
paid, `pending` otherwise. -/
def stripe_updated_order (invoice : StripeInvoice) (order : Order) : Order :=
  { order with
    status := if invoice.status = "paid" then OrderStatus.paid else OrderStatus.pending }

/-- `OrderService.update_order_from_stripe`: looks up the order by Stripe
invoice id, projects the invoice status, enqueues balance settlement when
paid, and runs the update notifier with the previous status. -/
def update_order_from_stripe (env : Env) (invoice : StripeInvoice) :
    Except OrderErr (Order × List Effect) :=
  match env.getOrderByStripeInvoiceId invoice.id with
  | none => Except.error (OrderErr.orderDoesNotExist invoice.id)
  | some order =>
    bindE (balance_enqueue_step env invoice (stripe_updated_order invoice order))
      (fun balanceEffs =>
        bindE (_on_order_updated env (stripe_updated_order invoice order) order.status)
          (fun updEffs =>
            Except.ok (stripe_updated_order invoice order, balanceEffs ++ updEffs)))

/-! ### Balance settlement (`create_order_balance`) -/

/-- `balance_transaction_service.get_by(type=payment, charge_id=...)`. -/
def getPaymentTransactionByCharge (st : LedgerState) (charge_id : String) :
    Option Transaction :=
  st.transactions.find? (fun t =>
    decide (t.type = TransactionType.payment ∧ t.charge_id = some charge_id))

/-- Modelled from the spec: the ledger service's `create_balance_from_charge`
(§6 Ledger service, §4.3), not under `src/`. It records a balance transaction
from the charge to the account for the given amount, linked to the order and
the payment transaction, so that the (payment-transaction, account) existence
check finds it later. -/
def create_balance_from_charge (next_id : Nat) (o : Order) (charge_id : String)
    (amount : Int) (payment_transaction_id : Nat) (account_id : Nat) : Transaction :=
  { id := next_id
    type := TransactionType.balance
    charge_id := some charge_id
    amount := amount
    payment_transaction_id := some payment_transaction_id
    account_id := some account_id
    order_id := some o.id
    payment_customer_id := none }

/-- `payment_transaction.order = order; payment_transaction.payment_customer =
order.customer; session.add(...)`: link the payment transaction row to the
order and its customer. -/
def link_payment_transaction (st : LedgerState) (ptid : Nat) (o : Order) : LedgerState :=
  { st with transactions := st.transactions.map (fun (t : Transaction) =>
      if t.id = ptid then
        { t with order_id := some o.id, payment_customer_id := some o.customer.id }
      else t) }

/-- `OrderService.create_order_balance`: links the payment transaction to the
order, then either defers a `HeldBalance` (no payout account) or creates an
immediate balance transfer, each behind an existence-check idempotency guard.
The existence checks read the pre-link rows; linking does not touch the
fields they inspect. -/
def create_order_balance (st : LedgerState) (o : Order) (charge_id : String) :
    Except OrderErr (LedgerState × List Effect) :=
  match getPaymentTransactionByCharge st charge_id with
  | none => Except.error (OrderErr.paymentTransactionForChargeDoesNotExist charge_id)
  | some payment_transaction =>
    match st.accounts.find? (fun a => decide (a.organization_id = o.organization_id)) with
    | none =>
      match st.heldBalances.find? (fun (hb : HeldBalanceRec) =>
        decide (hb.payment_transaction_id = payment_transaction.id ∧
          hb.organization_id = some o.organization_id)) with
      | some _ => Except.error (OrderErr.alreadyBalancedOrder o.id payment_transaction.id)
      | none =>
        Except.ok
          ({ link_payment_transaction st payment_transaction.id o with
              heldBalances := st.heldBalances ++
                [{ amount := payment_transaction.amount
                   order_id := o.id
                   payment_transaction_id := payment_transaction.id
                   organization_id := some o.organization_id }] },
            [Effect.notifyOrgMembers o.organization_id
              NotificationType.maintainer_create_account])
    | some account =>
      match st.transactions.find? (fun (t : Transaction) =>
        decide (t.type = TransactionType.balance ∧
          t.payment_transaction_id = some payment_transaction.id ∧
          t.account_id = some account.id)) with
      | some _ => Except.error (OrderErr.alreadyBalancedOrder o.id payment_transaction.id)
      | none =>
        Except.ok
          ({ link_payment_transaction st payment_transaction.id o with
              transactions :=
                (link_payment_transaction st payment_transaction.id o).transactions ++
                  [create_balance_from_charge st.next_transaction_id o charge_id
                    payment_transaction.amount payment_transaction.id account.id]
              next_transaction_id := st.next_transaction_id + 1 },
            [Effect.feesReversalBalances st.next_transaction_id])

/-! ### Checkout-to-order conversion (`create_from_checkout`) -/

def is_custom_price : ProductPriceModel → Bool
  | ProductPriceModel.custom _ => true
  | _ => false

/-- Modelled from the spec: `OrderItem.from_price` (polar.models, not under
`src/`). Per §4.1, custom (pay-what-you-want) prices use the checkout's chosen
amount, fixed prices use the price-defined amount, and tiered/metered amounts
are resolved elsewhere (zero here). The second argument is the tax amount,
the third the custom price's chosen amount. -/
def OrderItem.from_price : ProductPriceModel → Int → Option Int → OrderItem
  | ProductPriceModel.custom pid, tax, chosen =>
    { label := ""
      amount := chosen.getD 0
      tax_amount := tax
      proration := false
      product_price_id := some pid }
  | ProductPriceModel.fixed pid amt, tax, _ =>
    { label := ""
      amount := amt
      tax_amount := tax
      proration := false
      product_price_id := some pid }
  | ProductPriceModel.metered pid, tax, _ =>
    { label := ""
      amount := 0
      tax_amount := tax
      proration := false
      product_price_id := some pid }

/-- `OrderService.create_from_checkout`: materializes a paid order from a
completed one-time checkout, links an already-captured payment, records the
tax transaction, and fires the creation side effects. -/
def create_from_checkout (env : Env) (checkout : Checkout) (payment : Option Payment) :
    Except OrderErr (Order × List Effect) :=
  let product := checkout.product
  if product.is_recurring = true then
    Except.error (OrderErr.recurringProduct checkout.id product.id)
  else
    match checkout.customer with
    | none => Except.error (OrderErr.missingCheckoutCustomer checkout.id)
    | some customer =>
      let items := product.prices.map (fun price =>
        if is_custom_price price = true then
          OrderItem.from_price price 0 (some checkout.amount)
        else OrderItem.from_price price 0 none)
      let discount_amount := checkout.discount_amount
      let tax_amount := checkout.tax_amount.getD 0
      let tax_id := customer.tax_id
      bindE (match checkout.tax_processor_id with
        | none => Except.ok ((none : Option String), (none : Option String))
        | some tax_processor_id =>
          let calculation := env.getTaxCalculation tax_processor_id
          if tax_amount ≠ calculation.tax_amount_exclusive then
            Except.error OrderErr.assertionFailed
          else match calculation.tax_breakdown with
            | [] => Except.error OrderErr.assertionFailed
            | breakdown :: _ =>
              Except.ok
                (env.taxabilityReasonFromStripe breakdown.taxability_reason tax_amount,
                  env.fromStripeTaxRateDetails breakdown.tax_rate_details))
      (fun taxInfo =>
        let invoice_number := env.nextInvoiceNumber checkout.organization.id
        let order : Order :=
          { id := env.nextOrderId
            status := OrderStatus.paid
            subtotal_amount := checkout.amount
            discount_amount := discount_amount
            tax_amount := tax_amount
            currency := checkout.currency
            billing_reason := OrderBillingReason.purchase
            billing_name := customer.billing_name
            billing_address := customer.billing_address
            stripe_invoice_id := none
            taxability_reason := taxInfo.1
            tax_id := tax_id
            tax_rate := taxInfo.2
            tax_transaction_processor_id := none
            invoice_number := invoice_number
            invoice_path := none
            customer := customer
            product := product
            discount := checkout.discount
            subscription_id := none
            checkout := some checkout
            items := items
            user_metadata := checkout.user_metadata
            custom_field_data := checkout.custom_field_data
            created_at := 0 }
        bindE (match payment with
          | none => Except.ok []
          | some p =>
            if p.amount = order.total_amount then
              Except.ok [Effect.enqueueOrderBalance order.id p.processor_id]
            else Except.error OrderErr.assertionFailed)
        (fun paymentEffs =>
          let taxPair : Order × List Effect :=
            match checkout.tax_processor_id with
            | none => (order, [])
            | some tax_processor_id =>
              let txn_id := env.createTaxTransactionId tax_processor_id
              ({ order with tax_transaction_processor_id := some txn_id },
                [Effect.createStripeTaxTransaction tax_processor_id order.id])
          let order := taxPair.1
          bindE (_on_order_created env order) (fun createdEffs =>
            Except.ok (order,
              paymentEffs ++ taxPair.2 ++
              [Effect.enqueueBenefitsGrants customer.id product.id order.id,
                Effect.notifyOrgMembers product.organization_id
                  NotificationType.maintainer_new_product_sale,
                Effect.confirmationEmail customer.email] ++ createdEffs))))

/-! ### Invoice reconciliation: creation path (`create_order_from_stripe`) -/

def _is_empty_customer_address : Option Address → Bool
  | none => true
  | some addr => addr.country.isNone

/-- Billing address priority: customer's stored address, then the invoice's
customer address if non-empty, then the country of the charge's card. -/
def resolve_billing_address (env : Env) (invoice : StripeInvoice) (customer : Customer) :
    Option Address :=
  if customer.billing_address.isSome then customer.billing_address
  else if _is_empty_customer_address invoice.customer_address = false then
    invoice.customer_address
  else
    match invoice.charge with
    | some ch =>
      (match (env.getCharge ch).payment_method_card_country with
       | some country => some { country := country }
       | none => none)
    | none => none

/-- Discount resolution: the external coupon's metadata must carry an internal
discount id resolving to a live record. -/
def resolve_discount (env : Env) (invoice : StripeInvoice) :
    Except OrderErr (Option DiscountModel) :=
  match invoice.discount with
  | none => Except.ok none
  | some d =>
    let coupon := d.coupon
    match coupon.metadata with
    | none => Except.error (OrderErr.discountDoesNotExist invoice.id coupon.id)
    | some md =>
      match md.lookup "discount_id" with
      | none => Except.error (OrderErr.keyError "discount_id")
      | some discount_id =>
        match env.getDiscountById discount_id with
        | none => Except.error (OrderErr.discountDoesNotExist invoice.id coupon.id)
        | some disc => Except.ok (some disc)

/-- Python's `a or b` on optional strings (empty string is falsy). -/
def pyOr (a b : Option String) : Option String :=
  match a with
  | some s => if s = "" then b else some s
  | none => b

/-- Checkout resolution from invoice or subscription metadata. -/
def resolve_checkout (env : Env) (invoice : StripeInvoice) :
    Except OrderErr (Option Checkout) :=
  let invoice_metadata := invoice.metadata.getD []
  let subscription_metadata := (invoice.subscription_details.getD none).getD []
  match pyOr (invoice_metadata.lookup "checkout_id")
      (subscription_metadata.lookup "checkout_id") with
  | none => Except.ok none
  | some checkout_id =>
    match env.getCheckoutById checkout_id with
    | none => Except.error (OrderErr.checkoutDoesNotExist invoice.id checkout_id)
    | some checkout => Except.ok (some checkout)

/-- Items from invoice lines: local price resolved by metadata hint first,
else by Stripe price id; unresolved lines keep label/amount/tax with no
price link. -/
def build_invoice_items (env : Env) (invoice : StripeInvoice) : List OrderItem :=
  invoice.lines.map (fun line =>
    let tax_amount := (line.tax_amounts.map (fun t => t.amount)).sum
    let product_price : Option String :=
      match line.price with
      | none => none
      | some price =>
        match price.metadata with
        | some md =>
          (match md.lookup "product_price_id" with
           | some ppid =>
             if ppid = "" then env.getProductPriceByStripeId price.id
             else env.getProductPriceById ppid
           | none => env.getProductPriceByStripeId price.id)
        | none => env.getProductPriceByStripeId price.id
    { label := line.description.getD ""
      amount := line.amount
      tax_amount := tax_amount
      proration := line.proration
      product_price_id := product_price })

/-- Draft-invoice handling: append pending metered billing entries, reload the
invoice when any were added, and re-apply the length-capped statement
descriptor. -/
def draft_invoice_step (env : Env) (invoice : StripeInvoice) (subscription : Subscription)
    (customer : Customer) (items : List OrderItem) :
    Except OrderErr (StripeInvoice × List OrderItem × List Effect) :=
  if invoice.status = "draft" then
    match customer.stripe_customer_id with
    | none => Except.error OrderErr.assertionFailed
    | some stripe_customer_id =>
      let pending_items := env.pendingOrderItems subscription.id invoice.id stripe_customer_id
      let items := items ++ pending_items
      let invoice := if pending_items.length > 0 then env.getInvoice invoice.id else invoice
      Except.ok (invoice, items,
        [Effect.updateInvoiceDescriptor invoice.id
          (subscription.organization.name.take env.descriptorMaxLength)])
  else Except.ok (invoice, items, [])

/-- `OrderBillingReason(...)`: parse of the Stripe reason code. -/
def parse_billing_reason : String → Option OrderBillingReason
  | "purchase" => some OrderBillingReason.purchase
  | "subscription_cycle" => some OrderBillingReason.subscription_cycle
  | "subscription_create" => some OrderBillingReason.subscription_create
  | "subscription_update" => some OrderBillingReason.subscription_update
  | _ => none

/-- The tax loop over `total_tax_amounts`: the taxability reason is
re-assigned each iteration; the tax rate is the first entry whose Stripe rate
converts (a failed conversion skips to the next entry). -/
def resolve_invoice_tax (env : Env) (tax_amount : Int) :
    List StripeTaxAmount → Option String → Option String × Option String
  | [], acc => (acc, none)
  | e :: rest, _ =>
    let taxability_reason := env.taxabilityReasonFromStripe e.taxability_reason tax_amount
    match env.fromStripeTaxRate (env.getTaxRate e.tax_rate) with
    | some rate => (taxability_reason, some rate)
    | none => resolve_invoice_tax env tax_amount rest taxability_reason

/-- The meter reset loop: one `meter_reset` event per attached meter, plus a
`meter_credited` event when the rollover units are strictly positive. -/
def meter_reset_effects (env : Env) (customer : Customer)
    (meters : List SubscriptionMeterModel) : List Effect :=
  meters.flatMap (fun sm =>
    Effect.meterReset sm.meter_id ::
      (if 0 < env.getRolloverUnits customer.id sm.meter_id then
        [Effect.meterCredited sm.meter_id (env.getRolloverUnits customer.id sm.meter_id)]
      else []))

/-- `OrderService.create_order_from_stripe`: creates the order for the first
invoice event of a subscription, resolving discount, checkout, items, draft
pending entries, billing reason, tax data, and firing meter resets and the
creation notifier. -/
def create_order_from_stripe (env : Env) (invoice : StripeInvoice) :
    Except OrderErr (Order × List Effect) :=
  if (invoice.metadata.getD []).lookup "type" = some "pledge" then
    Except.error (OrderErr.notAnOrderInvoice invoice.id)
  else
    match invoice.subscription with
    | none => Except.error (OrderErr.notASubscriptionInvoice invoice.id)
    | some stripe_subscription_id =>
      match env.getSubscriptionByStripeId stripe_subscription_id with
      | none =>
        Except.error (OrderErr.subscriptionDoesNotExist invoice.id stripe_subscription_id)
      | some subscription =>
        let customer := subscription.customer
        let billing_address := resolve_billing_address env invoice customer
        bindE (resolve_discount env invoice) (fun discount =>
        bindE (resolve_checkout env invoice) (fun checkout =>
        let items := build_invoice_items env invoice
        bindE (draft_invoice_step env invoice subscription customer items) (fun draftRes =>
        let invoice := draftRes.1
        let items := draftRes.2.1
        let draftEffs := draftRes.2.2
        let billing_reason := match invoice.billing_reason with
          | none => OrderBillingReason.subscription_cycle
          | some br => (parse_billing_reason br).getD OrderBillingReason.subscription_cycle
        let discount_amount := (invoice.total_discount_amounts.getD []).sum
        let tax_amount := invoice.tax.getD 0
        let taxInfo := resolve_invoice_tax env tax_amount invoice.total_tax_amounts none
        let user_metadata := match checkout with
          | some c => c.user_metadata
          | none => subscription.user_metadata
        let custom_field_data := match checkout with
          | some c => c.custom_field_data
          | none => subscription.custom_field_data
        let invoice_number := env.nextInvoiceNumber subscription.organization.id
        let order : Order :=
          { id := env.nextOrderId
            status := if invoice.status = "paid" then OrderStatus.paid else OrderStatus.pending
            subtotal_amount := invoice.subtotal
            discount_amount := discount_amount
            tax_amount := tax_amount
            currency := invoice.currency
            billing_reason := billing_reason
            billing_name := customer.billing_name
            billing_address := billing_address
            stripe_invoice_id := some invoice.id
            taxability_reason := taxInfo.1
            tax_id := customer.tax_id
            tax_rate := taxInfo.2
            tax_transaction_processor_id := none
            invoice_number := invoice_number
            invoice_path := none
            customer := customer
            product := subscription.product
            discount := discount
            subscription_id := some subscription.id
            checkout := checkout
            items := items
            user_metadata := user_metadata
            custom_field_data := custom_field_data
            created_at := invoice.created }
        let meterEffs := meter_reset_effects env customer subscription.meters
        bindE (_on_order_created env order) (fun createdEffs =>
          Except.ok (order, draftEffs ++ meterEffs ++ createdEffs)))))

/-! ### Effect classifiers -/

def isOrderPaidWebhook : Effect → Bool
  | Effect.webhook t _ =>
    (match t with
     | WebhookType.order_paid => true
     | WebhookType.order_created => false
     | WebhookType.order_updated => false)
  | Effect.enqueueOrderBalance _ _ => false
  | Effect.enqueueInvoiceGeneration _ => false
  | Effect.enqueueBenefitsGrants _ _ _ => false
  | Effect.enqueueBenefitGrantCycles _ => false
  | Effect.discordNotification _ => false
  | Effect.checkoutEvent _ => false
  | Effect.notifyOrgMembers _ _ => false
  | Effect.confirmationEmail _ => false
  | Effect.meterReset _ => false
  | Effect.meterCredited _ _ => false
  | Effect.updateInvoiceDescriptor _ _ => false
  | Effect.createStripeTaxTransaction _ _ => false
  | Effect.feesReversalBalances _ => false

def isGrantCycleJob : Effect → Bool
  | Effect.webhook _ _ => false
  | Effect.enqueueOrderBalance _ _ => false
  | Effect.enqueueInvoiceGeneration _ => false
  | Effect.enqueueBenefitsGrants _ _ _ => false
  | Effect.enqueueBenefitGrantCycles _ => true
  | Effect.discordNotification _ => false
  | Effect.checkoutEvent _ => false
  | Effect.notifyOrgMembers _ _ => false
  | Effect.confirmationEmail _ => false
  | Effect.meterReset _ => false
  | Effect.meterCredited _ _ => false
  | Effect.updateInvoiceDescriptor _ _ => false
  | Effect.createStripeTaxTransaction _ _ => false
  | Effect.feesReversalBalances _ => false

def isMeterEffect : Effect → Bool
  | Effect.webhook _ _ => false
  | Effect.enqueueOrderBalance _ _ => false
  | Effect.enqueueInvoiceGeneration _ => false
  | Effect.enqueueBenefitsGrants _ _ _ => false
  | Effect.enqueueBenefitGrantCycles _ => false
  | Effect.discordNotification _ => false
  | Effect.checkoutEvent _ => false
  | Effect.notifyOrgMembers _ _ => false
  | Effect.confirmationEmail _ => false
  | Effect.meterReset _ => true
  | Effect.meterCredited _ _ => true
  | Effect.updateInvoiceDescriptor _ _ => false
  | Effect.createStripeTaxTransaction _ _ => false
  | Effect.feesReversalBalances _ => false

/-! ### Sample data used by witnesses -/

def customerA : Customer :=
  { id := 1
    email := "alice@example.com"
    billing_name := some "Alice"
    billing_address := some { country := some "US" }
    tax_id := none
    stripe_customer_id := some "cus_1" }

def organizationA : Organization := { id := 10, slug := "acme", name := "Acme" }

def productA : Product :=
  { id := 20
    organization_id := 10
    name := "Widget"
    is_recurring := false
    prices := [ProductPriceModel.custom "price_1"] }

def orderA : Order :=
  { id := 1
    status := OrderStatus.paid
    subtotal_amount := 10000
    discount_amount := 0
    tax_amount := 0
    currency := "usd"
    billing_reason := OrderBillingReason.purchase
    billing_name := some "Alice"
    billing_address := some { country := some "US" }
    stripe_invoice_id := none
    taxability_reason := none
    tax_id := none
    tax_rate := none
    tax_transaction_processor_id := none
    invoice_number := 1
    invoice_path := none
    customer := customerA
    product := productA
    discount := none
    subscription_id := none
    checkout := none
    items := []
    user_metadata := []
    custom_field_data := []
    created_at := 0 }

def emptyInvoice (iid : String) : StripeInvoice :=
  { id := iid
    metadata := none
    subscription := none
    subscription_details := none
    status := "open"
    charge := none
    customer_address := none
    discount := none
    lines := []
    billing_reason := none
    total_discount_amounts := none
    tax := none
    total_tax_amounts := []
    subtotal := 0
    currency := "usd"
    created := 0 }

def baseEnv : Env :=
  { getOrderByStripeInvoiceId := fun _ => none
    getSubscriptionByStripeId := fun _ => none
    getDiscountById := fun _ => none
    getCheckoutById := fun _ => none
    getProductPriceById := fun _ => none
    getProductPriceByStripeId := fun _ => none
    getCharge := fun _ => { payment_method_card_country := none }
    getTaxRate := fun s => s
    fromStripeTaxRate := fun _ => none
    taxabilityReasonFromStripe := fun _ _ => none
    fromStripeTaxRateDetails := fun _ => none
    getTaxCalculation := fun _ => { tax_amount_exclusive := 0, tax_breakdown := [] }
    getInvoice := fun i => emptyInvoice i
    getPaymentIntent := fun _ => { latest_charge := none }
    getRolloverUnits := fun _ _ => 0
    getOrganizationById := fun _ => some organizationA
    nextInvoiceNumber := fun _ => 1
    nextOrderId := 100
    pendingOrderItems := fun _ _ _ => []
    createTaxTransactionId := fun s => s
    descriptorMaxLength := 22 }

def orderUpdateNameB : OrderUpdate :=
  { set_billing_name := true
    billing_name := some "Bob"
    set_billing_address := false
    billing_address := none }

/-- Number of held balances recorded for a (payment-transaction,
organization) pair. -/
def heldBalanceCount (st : LedgerState) (ptid : Nat) (orgid : Nat) : Nat :=
  (st.heldBalances.filter (fun (hb : HeldBalanceRec) =>
    decide (hb.payment_transaction_id = ptid ∧ hb.organization_id = some orgid))).length

def ptA : Transaction :=
  { id := 50
    type := TransactionType.payment
    charge_id := some "ch_1"
    amount := 10000
    payment_transaction_id := none
    account_id := none
    order_id := none
    payment_customer_id := none }

def ledgerA : LedgerState :=
  { transactions := [ptA], heldBalances := [], accounts := [], next_transaction_id := 60 }

def accountB : AccountRec := { id := 7, organization_id := 10 }

def ledgerB : LedgerState :=
  { transactions := [ptA], heldBalances := [], accounts := [accountB],
    next_transaction_id := 60 }

def c6res : LedgerState × List Effect :=
  match create_order_balance ledgerB orderA "ch_1" with
  | Except.ok r => r
  | Except.error _ => (ledgerB, [])

def orderC1 : Order :=
  { orderA with
    status := OrderStatus.pending
    billing_reason := OrderBillingReason.subscription_cycle
    subscription_id := some 30
    stripe_invoice_id := some "inv1" }

def invC1 : StripeInvoice :=
  { emptyInvoice "inv1" with status := "paid", charge := some "ch_1" }

def envC1 : Env :=
  { baseEnv with
    getOrderByStripeInvoiceId := fun i => if i = "inv1" then some orderC1 else none }

def c1res : Order × List Effect :=
  match update_order_from_stripe envC1 invC1 with
  | Except.ok r => r
  | Except.error _ => (orderA, [])

def envC1b : Env :=
  { envC1 with
    getOrderByStripeInvoiceId := fun i => if i = "inv1" then some c1res.1 else none }

def checkoutA : Checkout :=
  { id := 2
    client_secret := "sec"
    organization := organizationA
    product := productA
    customer := some customerA
    amount := 10000
    currency := "usd"
    discount := none
    discount_amount := 0
    tax_amount := none
    tax_processor_id := none
    user_metadata := []
    custom_field_data := [] }

def subA : Subscription :=
  { id := 30
    stripe_subscription_id := "sub8"
    organization := organizationA
    product := productA
    customer := customerA
    meters := []
    user_metadata := []
    custom_field_data := [] }

def invC8 : StripeInvoice :=
  { emptyInvoice "inv8" with
    subscription := some "sub8"
    discount := some { coupon := { id := "coupon8", metadata := none } } }

def envC8 : Env :=
  { baseEnv with
    getSubscriptionByStripeId := fun s => if s = "sub8" then some subA else none }

def subC5 : Subscription :=
  { id := 31
    stripe_subscription_id := "sub5"
    organization := organizationA
    product := productA
    customer := customerA
    meters := [{ meter_id := "m1" }, { meter_id := "m2" }]
    user_metadata := []
    custom_field_data := [] }

def invC5 : StripeInvoice :=
  { emptyInvoice "inv5" with
    subscription := some "sub5"
    status := "paid"
    billing_reason := some "subscription_cycle" }

def envC5 : Env :=
  { baseEnv with
    getSubscriptionByStripeId := fun s => if s = "sub5" then some subC5 else none
    getRolloverUnits := fun _ mid => if mid = "m1" then 5 else 0 }

def c5res : Order × List Effect :=
  match create_order_from_stripe envC5 invC5 with
  | Except.ok r => r
  | Except.error _ => (orderA, [])

/-! ### Helper lemmas -/

theorem bindE_ok {α β : Type} {x : Except OrderErr α} {f : α → Except OrderErr β} {r : β}
    (h : bindE x f = Except.ok r) : ∃ v, x = Except.ok v ∧ f v = Except.ok r := by
  cases x with
  | error e => simp [bindE] at h
  | ok v => exact ⟨v, rfl, h⟩

theorem update_locked_fail (env : Env) (o : Order) (u : OrderUpdate)
    (hp : o.invoice_path ≠ none) (hne : lockedFieldErrors o u ≠ []) :
    update env o u = Except.error (OrderErr.validationFailed (lockedFieldErrors o u)) := by
  unfold update
  rw [if_pos hp, if_pos hne]

theorem update_unlocked_ok (env : Env) (o : Order) (u : OrderUpdate)
    (hp : o.invoice_path = none) :
    update env o u =
      Except.ok (applyOrderUpdate o u,
        send_webhook env (applyOrderUpdate o u) WebhookType.order_updated) := by
  unfold update
  simp [hp]

theorem lockedFieldErrors_eq_nil (o : Order) (u : OrderUpdate)
    (hname : u.set_billing_name = true → u.billing_name = o.billing_name)
    (haddr : u.set_billing_address = true → u.billing_address = o.billing_address) :
    lockedFieldErrors o u = [] := by
  unfold lockedFieldErrors
  rcases hn : u.set_billing_name <;> rcases ha : u.set_billing_address <;>
    simp_all

theorem send_webhook_effects (env : Env) (o : Order) (t : WebhookType) :
    ∀ eff ∈ send_webhook env o t, eff = Effect.webhook t o.id := by
  unfold send_webhook
  rcases env.getOrganizationById o.product.organization_id with _ | org <;> simp

theorem applyOrderUpdate_eq_self (o : Order) (u : OrderUpdate)
    (hname : u.set_billing_name = true → u.billing_name = o.billing_name)
    (haddr : u.set_billing_address = true → u.billing_address = o.billing_address) :
    applyOrderUpdate o u = o := by
  unfold applyOrderUpdate
  rcases hn : u.set_billing_name <;> rcases ha : u.set_billing_address <;>
    cases o <;> simp_all

/-! ### Claim theorems -/

/-- C3: while no invoice document exists any update succeeds (in particular a
billing-name change), producing the updated order; once `invoice_path` is set,
an update changing `billing_name` (or `billing_address`) to a different value
fails with a field-level validation error naming the locked field, so no
updated order is produced. -/
theorem C3_update_invoice_locking (env : Env) (o : Order) (u : OrderUpdate) :
    (o.invoice_path = none →
      ∃ effs, update env o u = Except.ok (applyOrderUpdate o u, effs))
    ∧ (u.set_billing_name = true → (applyOrderUpdate o u).billing_name = u.billing_name)
    ∧ (∀ p, o.invoice_path = some p → u.set_billing_name = true →
        u.billing_name ≠ o.billing_name →
        ∃ fields, update env o u = Except.error (OrderErr.validationFailed fields) ∧
          "billing_name" ∈ fields)
    ∧ (∀ p, o.invoice_path = some p → u.set_billing_address = true →
        u.billing_address ≠ o.billing_address →
        ∃ fields, update env o u = Except.error (OrderErr.validationFailed fields) ∧
          "billing_address" ∈ fields) := by
  refine ⟨?_, ?_, ?_, ?_⟩
  · intro hp
    exact ⟨_, update_unlocked_ok env o u hp⟩
  · intro hset
    unfold applyOrderUpdate
    rcases ha : u.set_billing_address <;> simp [hset]
  · intro p hp hset hne
    have hmem : "billing_name" ∈ lockedFieldErrors o u := by
      unfold lockedFieldErrors
      simp [hset, hne]
    exact ⟨lockedFieldErrors o u,
      update_locked_fail env o u (by simp [hp]) (List.ne_nil_of_mem hmem), hmem⟩
  · intro p hp hset hne
    have hmem : "billing_address" ∈ lockedFieldErrors o u := by
      unfold lockedFieldErrors
      simp [hset, hne]
    exact ⟨lockedFieldErrors o u,
      update_locked_fail env o u (by simp [hp]) (List.ne_nil_of_mem hmem), hmem⟩


/-- Witness for C3 at a concrete order and update. -/
theorem C3_witness :
    (∃ effs, update baseEnv orderA orderUpdateNameB =
      Except.ok (applyOrderUpdate orderA orderUpdateNameB, effs))
    ∧ (∃ fields,
        update baseEnv { orderA with invoice_path := some "inv.pdf" } orderUpdateNameB =
          Except.error (OrderErr.validationFailed fields) ∧ "billing_name" ∈ fields) := by
  constructor
  · exact (C3_update_invoice_locking baseEnv orderA orderUpdateNameB).1 rfl
  · exact (C3_update_invoice_locking baseEnv
      { orderA with invoice_path := some "inv.pdf" } orderUpdateNameB).2.2.1
      "inv.pdf" rfl rfl (by decide)

/-- C9: an update that includes a locked field whose submitted value equals
the order's current value passes the invoice lock (even with `invoice_path`
set) and succeeds, leaving the order unchanged: the lock rejects changes, not
every write mentioning a locked field. -/
theorem C9_update_equal_locked_values_ok (env : Env) (o : Order) (u : OrderUpdate)
    (hname : u.set_billing_name = true → u.billing_name = o.billing_name)
    (haddr : u.set_billing_address = true → u.billing_address = o.billing_address) :
    ∃ effs, update env o u = Except.ok (o, effs) := by
  have herr : lockedFieldErrors o u = [] := lockedFieldErrors_eq_nil o u hname haddr
  have happ : applyOrderUpdate o u = o := applyOrderUpdate_eq_self o u hname haddr
  refine ⟨send_webhook env o WebhookType.order_updated, ?_⟩
  unfold update
  rcases hp : o.invoice_path with _ | p <;> simp [herr, happ]

/-- Witness for C9: the locked order accepts an update re-submitting the
current billing name. -/
theorem C9_witness :
    ∃ effs,
      update baseEnv { orderA with invoice_path := some "inv.pdf" }
        { set_billing_name := true
          billing_name := some "Alice"
          set_billing_address := false
          billing_address := none } =
      Except.ok ({ orderA with invoice_path := some "inv.pdf" }, effs) :=
  C9_update_equal_locked_values_ok baseEnv _ _ (fun _ => rfl) (by intro h; cases h)

/-- C7: `trigger_invoice_generation` fails exactly when the order already has
an invoice document, or is not paid, or billing name/address is missing —
checked in that order — and otherwise only enqueues the `order.invoice`
job (the order itself is not modified). -/
theorem C7_trigger_invoice_generation_guards (o : Order) :
    ((isOkE (trigger_invoice_generation o) = true) ↔
      (o.invoice_path = none ∧ o.paid = true ∧
        o.billing_name ≠ none ∧ o.billing_address ≠ none))
    ∧ (∀ p, o.invoice_path = some p →
        trigger_invoice_generation o = Except.error (OrderErr.invoiceAlreadyExists o.id))
    ∧ (o.invoice_path = none → o.paid = false →
        trigger_invoice_generation o = Except.error (OrderErr.notPaidOrder o.id))
    ∧ (o.invoice_path = none → o.paid = true →
        (o.billing_name = none ∨ o.billing_address = none) →
        trigger_invoice_generation o =
          Except.error (OrderErr.missingInvoiceBillingDetails o.id))
    ∧ (o.invoice_path = none → o.paid = true →
        o.billing_name ≠ none → o.billing_address ≠ none →
        trigger_invoice_generation o = Except.ok [Effect.enqueueInvoiceGeneration o.id]) := by
  unfold trigger_invoice_generation
  rcases hp : o.invoice_path with _ | p <;>
    rcases hs : o.paid with _ | _ <;>
      rcases hb : o.billing_name with _ | bn <;>
        rcases ha : o.billing_address with _ | ba <;>
          simp [isOkE, hp, hs, hb, ha]

/-- Witness for C7 at a paid, unlocked, fully-billed order. -/
theorem C7_witness :
    trigger_invoice_generation orderA = Except.ok [Effect.enqueueInvoiceGeneration 1] :=
  (C7_trigger_invoice_generation_guards orderA).2.2.2.2 rfl rfl
    (by simp [orderA]) (by simp [orderA])

/-- C10: the paid handler's opening assertion holds on every call path: the
creation and update notifiers always succeed (never surface the handler's
`assertionFailed`), `_on_order_paid` itself rejects exactly non-paid orders,
and the `order_paid` webhook / benefit-grant-cycle job are only emitted for
paid orders. -/
theorem C10_paid_handler_only_on_paid (env : Env) (o : Order) (prev : OrderStatus) :
    (∃ e, _on_order_created env o = Except.ok e)
    ∧ (∃ e, _on_order_updated env o prev = Except.ok e)
    ∧ (_on_order_paid env o = Except.error OrderErr.assertionFailed ↔ o.paid = false)
    ∧ (∀ e, _on_order_created env o = Except.ok e →
        ∀ eff ∈ e, (isOrderPaidWebhook eff = true ∨ isGrantCycleJob eff = true) →
          o.paid = true)
    ∧ (∀ e, _on_order_updated env o prev = Except.ok e →
        ∀ eff ∈ e, (isOrderPaidWebhook eff = true ∨ isGrantCycleJob eff = true) →
          o.paid = true) := by
  unfold _on_order_created _on_order_updated _on_order_paid
  rcases hs : o.status with _ | _
  · have hpaid : o.paid = false := by unfold Order.paid; rw [hs]
    rw [hpaid]
    refine ⟨⟨_, rfl⟩, ⟨_, rfl⟩, by simp, ?_, ?_⟩
    · intro e he eff hmem hpe
      simp [bindE] at he
      subst he
      rcases ho : o.checkout with _ | c <;> rw [ho] at hmem <;>
        simp only [List.append_nil, List.mem_append, List.mem_cons,
          List.mem_singleton, List.not_mem_nil, or_false] at hmem
      · rcases hmem with hmem | hmem
        · rw [send_webhook_effects env o WebhookType.order_created eff hmem] at hpe
          rcases hpe with h | h <;> exact absurd h Bool.false_ne_true
        · subst hmem
          rcases hpe with h | h <;> exact absurd h Bool.false_ne_true
      · rcases hmem with hmem | hmem | hmem
        · rw [send_webhook_effects env o WebhookType.order_created eff hmem] at hpe
          rcases hpe with h | h <;> exact absurd h Bool.false_ne_true
        · subst hmem
          rcases hpe with h | h <;> exact absurd h Bool.false_ne_true
        · subst hmem
          rcases hpe with h | h <;> exact absurd h Bool.false_ne_true
    · intro e he eff hmem hpe
      simp [bindE] at he
      subst he
      rw [send_webhook_effects env o WebhookType.order_updated eff hmem] at hpe
      rcases hpe with h | h <;> exact absurd h Bool.false_ne_true
  · have hpaid : o.paid = true := by unfold Order.paid; rw [hs]
    rw [hpaid]
    refine ⟨⟨_, rfl⟩, ?_, by simp, fun _ _ _ _ _ => rfl, fun _ _ _ _ _ => rfl⟩
    by_cases hprev : prev = OrderStatus.paid
    · subst hprev
      exact ⟨_, rfl⟩
    · refine ⟨send_webhook env o WebhookType.order_updated ++
        (send_webhook env o WebhookType.order_paid ++
          (match o.subscription_id with
           | some sid =>
             if o.billing_reason = OrderBillingReason.subscription_cycle then
               [Effect.enqueueBenefitGrantCycles sid]
             else []
           | none => [])), ?_⟩
      rw [if_pos (And.intro rfl hprev)]
      rfl

/-! ### Balance settlement claims -/


theorem find?_map_of_pred_eq {α : Type} (f : α → α) (p : α → Bool) (l : List α)
    (h : ∀ t, p (f t) = p t) :
    (l.map f).find? p = (l.find? p).map f := by
  induction l with
  | nil => rfl
  | cons a l ih =>
    rw [List.map_cons]
    cases hp : p a with
    | false =>
      rw [List.find?_cons_of_neg _ (by simp [h a, hp]),
        List.find?_cons_of_neg _ (by simp [hp]), ih]
    | true =>
      rw [List.find?_cons_of_pos _ (by simp [h a, hp]),
        List.find?_cons_of_pos _ hp]
      rfl

theorem link_preserves_payment_pred (cid : String) (ptid : Nat) (o : Order) :
    ∀ t : Transaction,
      (fun (t : Transaction) =>
        decide (t.type = TransactionType.payment ∧ t.charge_id = some cid))
        (if t.id = ptid then
          { t with order_id := some o.id, payment_customer_id := some o.customer.id }
        else t) =
      (fun (t : Transaction) =>
        decide (t.type = TransactionType.payment ∧ t.charge_id = some cid)) t := by
  intro t
  cases t with
  | mk tid ttype tcharge tamount tpt tacct tord tpc =>
    by_cases hid : tid = ptid <;> simp [hid]

theorem create_order_balance_already_held (st : LedgerState) (o : Order)
    (charge_id : String) (pt : Transaction) (hb : HeldBalanceRec)
    (hpt : getPaymentTransactionByCharge st charge_id = some pt)
    (hacc : st.accounts.find?
      (fun a => decide (a.organization_id = o.organization_id)) = none)
    (hheld : st.heldBalances.find? (fun (hb : HeldBalanceRec) =>
      decide (hb.payment_transaction_id = pt.id ∧
        hb.organization_id = some o.organization_id)) = some hb) :
    create_order_balance st o charge_id =
      Except.error (OrderErr.alreadyBalancedOrder o.id pt.id) := by
  unfold create_order_balance
  simp only [hpt, hacc, hheld]

/-- C2: on an order whose organization has no payout account, balance
settlement succeeds once, creating exactly one held balance for the
(payment-transaction, organization) pair, and a second invocation for the
same charge fails with the already-balanced error, so no duplicate held
balance is created. -/
theorem C2_held_balance_idempotency (st : LedgerState) (o : Order) (charge_id : String)
    (pt : Transaction)
    (hpt : getPaymentTransactionByCharge st charge_id = some pt)
    (hacc : st.accounts.find?
      (fun a => decide (a.organization_id = o.organization_id)) = none)
    (hheld : st.heldBalances.find? (fun (hb : HeldBalanceRec) =>
      decide (hb.payment_transaction_id = pt.id ∧
        hb.organization_id = some o.organization_id)) = none) :
    heldBalanceCount st pt.id o.organization_id = 0
    ∧ ∃ st1 effs1, create_order_balance st o charge_id = Except.ok (st1, effs1)
      ∧ heldBalanceCount st1 pt.id o.organization_id = 1
      ∧ create_order_balance st1 o charge_id =
          Except.error (OrderErr.alreadyBalancedOrder o.id pt.id) := by
  have hnil : st.heldBalances.filter (fun (hb : HeldBalanceRec) =>
      decide (hb.payment_transaction_id = pt.id ∧
        hb.organization_id = some o.organization_id)) = [] := by
    rw [List.filter_eq_nil_iff]
    exact fun hb hmem => List.find?_eq_none.mp hheld hb hmem
  constructor
  · unfold heldBalanceCount
    rw [hnil]
    rfl
  · refine ⟨{ link_payment_transaction st pt.id o with
        heldBalances := st.heldBalances ++
          [{ amount := pt.amount
             order_id := o.id
             payment_transaction_id := pt.id
             organization_id := some o.organization_id }] },
      [Effect.notifyOrgMembers o.organization_id
        NotificationType.maintainer_create_account], ?_, ?_, ?_⟩
    · unfold create_order_balance
      simp only [hpt, hacc, hheld]
    · unfold heldBalanceCount
      show ((st.heldBalances ++
        [({ amount := pt.amount
            order_id := o.id
            payment_transaction_id := pt.id
            organization_id := some o.organization_id } : HeldBalanceRec)]).filter _).length = 1
      rw [List.filter_append, hnil]
      simp
    · refine create_order_balance_already_held _ o charge_id
        { pt with order_id := some o.id, payment_customer_id := some o.customer.id }
        { amount := pt.amount
          order_id := o.id
          payment_transaction_id := pt.id
          organization_id := some o.organization_id } ?_ ?_ ?_
      · show (st.transactions.map (fun (t : Transaction) =>
          if t.id = pt.id then
            { t with order_id := some o.id, payment_customer_id := some o.customer.id }
          else t)).find? (fun t =>
            decide (t.type = TransactionType.payment ∧ t.charge_id = some charge_id)) = _
        rw [find?_map_of_pred_eq _ _ _ (link_preserves_payment_pred charge_id pt.id o)]
        unfold getPaymentTransactionByCharge at hpt
        rw [hpt]
        simp
      · exact hacc
      · show (st.heldBalances ++
          [({ amount := pt.amount
              order_id := o.id
              payment_transaction_id := pt.id
              organization_id := some o.organization_id } : HeldBalanceRec)]).find? _ = _
        rw [List.find?_append, hheld]
        simp



/-- Witness for C2 on a concrete ledger with no payout account. -/
theorem C2_witness :
    heldBalanceCount ledgerA ptA.id (Order.organization_id orderA) = 0
    ∧ ∃ st1 effs1, create_order_balance ledgerA orderA "ch_1" = Except.ok (st1, effs1)
      ∧ heldBalanceCount st1 ptA.id (Order.organization_id orderA) = 1
      ∧ create_order_balance st1 orderA "ch_1" =
          Except.error (OrderErr.alreadyBalancedOrder orderA.id ptA.id) :=
  C2_held_balance_idempotency ledgerA orderA "ch_1" ptA rfl rfl rfl

/-- C6: whenever balance settlement succeeds, the amount it moves — the held
balance's amount when no payout account exists, or the created balance
transaction's amount when one does — is the payment transaction's amount
(not the order's total). -/
theorem C6_transfer_amount_is_payment_amount (st : LedgerState) (o : Order)
    (charge_id : String) (pt : Transaction) (st1 : LedgerState) (effs : List Effect)
    (hpt : getPaymentTransactionByCharge st charge_id = some pt)
    (hok : create_order_balance st o charge_id = Except.ok (st1, effs)) :
    (∃ hb, st1.heldBalances = st.heldBalances ++ [hb] ∧ hb.amount = pt.amount)
    ∨ (∃ bt, st1.transactions.getLast? = some bt ∧ bt.type = TransactionType.balance
        ∧ bt.amount = pt.amount ∧ st1.heldBalances = st.heldBalances) := by
  unfold create_order_balance at hok
  simp only [hpt] at hok
  rcases hacc : st.accounts.find?
      (fun a => decide (a.organization_id = o.organization_id)) with _ | account <;>
    simp only [hacc] at hok
  · rcases hheld : st.heldBalances.find? (fun (hb : HeldBalanceRec) =>
        decide (hb.payment_transaction_id = pt.id ∧
          hb.organization_id = some o.organization_id)) with _ | found <;>
      simp only [hheld] at hok
    · injection hok with h
      injection h with h1 h2
      subst h1
      exact Or.inl ⟨_, rfl, rfl⟩
    · cases hok
  · rcases hbal : st.transactions.find? (fun (t : Transaction) =>
        decide (t.type = TransactionType.balance ∧
          t.payment_transaction_id = some pt.id ∧
          t.account_id = some account.id)) with _ | found <;>
      simp only [hbal] at hok
    · injection hok with h
      injection h with h1 h2
      subst h1
      refine Or.inr ⟨create_balance_from_charge st.next_transaction_id o charge_id
        pt.amount pt.id account.id, ?_, rfl, rfl, rfl⟩
      show ((link_payment_transaction st pt.id o).transactions ++
        [create_balance_from_charge st.next_transaction_id o charge_id
          pt.amount pt.id account.id]).getLast? = _
      exact List.getLast?_concat _
    · cases hok





/-- Witness for C6 on a concrete ledger with a payout account. -/
theorem C6_witness :
    (∃ hb, c6res.1.heldBalances = ledgerB.heldBalances ++ [hb] ∧ hb.amount = ptA.amount)
    ∨ (∃ bt, c6res.1.transactions.getLast? = some bt ∧ bt.type = TransactionType.balance
        ∧ bt.amount = ptA.amount ∧ c6res.1.heldBalances = ledgerB.heldBalances) :=
  C6_transfer_amount_is_payment_amount ledgerB orderA "ch_1" ptA c6res.1 c6res.2 rfl rfl

/-! ### Paid-transition edge triggering (claim C1) -/

theorem send_webhook_of_org (env : Env) (o : Order) (t : WebhookType) (org : Organization)
    (h : env.getOrganizationById o.product.organization_id = some org) :
    send_webhook env o t = [Effect.webhook t o.id] := by
  unfold send_webhook
  rw [h]

theorem send_webhook_not_paid_counts (env : Env) (o : Order) (t : WebhookType)
    (h : t ≠ WebhookType.order_paid) :
    (send_webhook env o t).countP isOrderPaidWebhook = 0 ∧
    (send_webhook env o t).countP isGrantCycleJob = 0 := by
  unfold send_webhook
  rcases env.getOrganizationById o.product.organization_id with _ | org
  · simp
  · cases t with
    | order_paid => exact absurd rfl h
    | order_created =>
      simp [List.countP_cons, isOrderPaidWebhook, isGrantCycleJob]
    | order_updated =>
      simp [List.countP_cons, isOrderPaidWebhook, isGrantCycleJob]

theorem _on_order_paid_of_paid (env : Env) (o : Order) (h : o.paid = true) :
    _on_order_paid env o = Except.ok (send_webhook env o WebhookType.order_paid ++
      (match o.subscription_id with
       | some sid =>
         if o.billing_reason = OrderBillingReason.subscription_cycle then
           [Effect.enqueueBenefitGrantCycles sid]
         else []
       | none => [])) := by
  unfold _on_order_paid
  rw [if_pos h]

theorem balance_enqueue_step_counts (env : Env) (invoice : StripeInvoice) (o : Order)
    (l : List Effect) (h : balance_enqueue_step env invoice o = Except.ok l) :
    l.countP isOrderPaidWebhook = 0 ∧ l.countP isGrantCycleJob = 0 := by
  unfold balance_enqueue_step payment_intent_balance_step at h
  repeat' split at h
  all_goals cases h
  all_goals simp [List.countP_cons, List.countP_nil, isOrderPaidWebhook, isGrantCycleJob]

theorem balance_enqueue_step_congr (env env2 : Env) (invoice : StripeInvoice) (o : Order)
    (h : env2.getPaymentIntent = env.getPaymentIntent) :
    balance_enqueue_step env2 invoice o = balance_enqueue_step env invoice o := by
  unfold balance_enqueue_step payment_intent_balance_step
  simp only [h]

theorem order_set_status_self (o : Order) (h : o.status = OrderStatus.paid) :
    ({ o with status := OrderStatus.paid } : Order) = o := by
  cases o
  simp_all

theorem stripe_updated_order_paid (invoice : StripeInvoice) (o : Order)
    (h : invoice.status = "paid") :
    stripe_updated_order invoice o = { o with status := OrderStatus.paid } := by
  unfold stripe_updated_order
  rw [h]
  simp

/-- C1: applying a "paid" invoice update to a not-yet-paid order runs the
paid-transition effects exactly once — one `order_paid` webhook, and one
benefit-grant-cycle job exactly when the order is a subscription-cycle order —
and applying the same "paid" update again to the resulting order re-fires
neither of them. -/
theorem C1_paid_update_edge_triggered (env : Env) (invoice : StripeInvoice)
    (o o1 : Order) (e1 : List Effect)
    (horder : env.getOrderByStripeInvoiceId invoice.id = some o)
    (hprev : o.status ≠ OrderStatus.paid)
    (hpaid : invoice.status = "paid")
    (horg : (env.getOrganizationById o.product.organization_id).isSome = true)
    (h1 : update_order_from_stripe env invoice = Except.ok (o1, e1)) :
    o1.status = OrderStatus.paid
    ∧ e1.countP isOrderPaidWebhook = 1
    ∧ e1.countP isGrantCycleJob =
        (if o.subscription_id.isSome = true ∧
            o.billing_reason = OrderBillingReason.subscription_cycle then 1 else 0)
    ∧ ∀ env2 : Env,
        env2.getOrderByStripeInvoiceId invoice.id = some o1 →
        env2.getPaymentIntent = env.getPaymentIntent →
        ∃ e2, update_order_from_stripe env2 invoice = Except.ok (o1, e2)
          ∧ e2.countP isOrderPaidWebhook = 0
          ∧ e2.countP isGrantCycleJob = 0 := by
  rcases hOrg : env.getOrganizationById o.product.organization_id with _ | org
  · rw [hOrg] at horg
    simp at horg
  unfold update_order_from_stripe at h1
  simp only [horder, stripe_updated_order_paid invoice o hpaid] at h1
  obtain ⟨bEffs, hbal, h1'⟩ := bindE_ok h1
  obtain ⟨uEffs, hupd, h1''⟩ := bindE_ok h1'
  injection h1'' with h
  injection h with hO hE
  subst hO
  subst hE
  unfold _on_order_updated at hupd
  rw [if_pos (show ({ o with status := OrderStatus.paid } : Order).status =
      OrderStatus.paid ∧ o.status ≠ OrderStatus.paid from ⟨rfl, hprev⟩)] at hupd
  obtain ⟨pEffs, hpd, hupd'⟩ := bindE_ok hupd
  rw [_on_order_paid_of_paid env { o with status := OrderStatus.paid } rfl] at hpd
  injection hpd with hp
  subst hp
  injection hupd' with hu
  subst hu
  have hwU : send_webhook env { o with status := OrderStatus.paid }
      WebhookType.order_updated = [Effect.webhook WebhookType.order_updated o.id] :=
    send_webhook_of_org env _ _ org hOrg
  have hwP : send_webhook env { o with status := OrderStatus.paid }
      WebhookType.order_paid = [Effect.webhook WebhookType.order_paid o.id] :=
    send_webhook_of_org env _ _ org hOrg
  obtain ⟨hb0, hg0⟩ := balance_enqueue_step_counts env invoice _ bEffs hbal
  refine ⟨rfl, ?_, ?_, ?_⟩
  · rw [List.countP_append, hb0, List.countP_append, hwU, hwP]
    rcases hsub : o.subscription_id with _ | sid
    · simp [List.countP_cons, isOrderPaidWebhook]
    · by_cases hbr : o.billing_reason = OrderBillingReason.subscription_cycle <;>
        simp [List.countP_cons, isOrderPaidWebhook, hbr]
  · rw [List.countP_append, hg0, List.countP_append, hwU, hwP]
    rcases hsub : o.subscription_id with _ | sid
    · simp [List.countP_cons, isGrantCycleJob, hsub]
    · by_cases hbr : o.billing_reason = OrderBillingReason.subscription_cycle <;>
        simp [List.countP_cons, isGrantCycleJob, hsub, hbr]
  · intro env2 h2order h2pi
    have hbal2 : balance_enqueue_step env2 invoice
        ({ o with status := OrderStatus.paid } : Order) = Except.ok bEffs := by
      rw [balance_enqueue_step_congr env env2 invoice _ h2pi]
      exact hbal
    have hou2 : _on_order_updated env2 ({ o with status := OrderStatus.paid } : Order)
        OrderStatus.paid =
        Except.ok (send_webhook env2 { o with status := OrderStatus.paid }
          WebhookType.order_updated) := by
      unfold _on_order_updated
      rw [if_neg]
      rintro ⟨-, hb⟩
      exact hb rfl
    obtain ⟨hw0, hw0'⟩ := send_webhook_not_paid_counts env2
      ({ o with status := OrderStatus.paid } : Order) WebhookType.order_updated
      (by intro h; cases h)
    refine ⟨bEffs ++ send_webhook env2 { o with status := OrderStatus.paid }
      WebhookType.order_updated, ?_, ?_, ?_⟩
    · unfold update_order_from_stripe
      simp only [h2order,
        stripe_updated_order_paid invoice ({ o with status := OrderStatus.paid } : Order)
          hpaid]
      try rw [order_set_status_self ({ o with status := OrderStatus.paid } : Order) rfl]
      rw [hbal2]
      simp only [bindE]
      rw [hou2]
    · obtain ⟨hb2, -⟩ := balance_enqueue_step_counts env2 invoice _ bEffs hbal2
      rw [List.countP_append, hb2, hw0]
    · obtain ⟨-, hg2⟩ := balance_enqueue_step_counts env2 invoice _ bEffs hbal2
      rw [List.countP_append, hg2, hw0']






/-- Witness for C1: a concrete pending subscription-cycle order receiving the
same "paid" invoice update twice. -/
theorem C1_witness :
    c1res.1.status = OrderStatus.paid
    ∧ c1res.2.countP isOrderPaidWebhook = 1
    ∧ ∃ e2, update_order_from_stripe envC1b invC1 = Except.ok (c1res.1, e2)
        ∧ e2.countP isOrderPaidWebhook = 0
        ∧ e2.countP isGrantCycleJob = 0 := by
  have h := C1_paid_update_edge_triggered envC1 invC1 orderC1 c1res.1 c1res.2
    rfl (by decide) rfl rfl rfl
  exact ⟨h.1, h.2.1, h.2.2.2 envC1b rfl rfl⟩

/-! ### Checkout conversion scenario (claim C4) -/

/-- C4: a completed checkout with a single custom (pay-what-you-want) price,
chosen amount 10000, no discount, and no tax processor id produces a paid
order with subtotal 10000, discount 0, tax 0, and exactly one item of
amount 10000. -/
theorem C4_checkout_custom_price_scenario (env : Env) (checkout : Checkout)
    (c : Customer) (pid : String)
    (hrec : checkout.product.is_recurring = false)
    (hcust : checkout.customer = some c)
    (hprices : checkout.product.prices = [ProductPriceModel.custom pid])
    (hamount : checkout.amount = 10000)
    (hdisc : checkout.discount_amount = 0)
    (htax : checkout.tax_amount = none)
    (htpid : checkout.tax_processor_id = none) :
    ∃ o effs, create_from_checkout env checkout none = Except.ok (o, effs)
      ∧ o.subtotal_amount = 10000 ∧ o.discount_amount = 0 ∧ o.tax_amount = 0
      ∧ o.status = OrderStatus.paid
      ∧ ∃ item, o.items = [item] ∧ item.amount = 10000 := by
  unfold create_from_checkout
  simp only [hrec, hcust, hprices, hamount, hdisc, htax, htpid, Bool.false_eq_true,
    if_false, List.map_cons, List.map_nil, is_custom_price, OrderItem.from_price,
    Option.getD, bindE, _on_order_created, _on_order_paid, Order.paid, if_true]
  refine ⟨_, _, rfl, rfl, rfl, rfl, rfl, ⟨_, rfl, rfl⟩⟩

/-- Witness for C4 at a concrete checkout. -/
theorem C4_witness :
    ∃ o effs, create_from_checkout baseEnv checkoutA none = Except.ok (o, effs)
      ∧ o.subtotal_amount = 10000 ∧ o.discount_amount = 0 ∧ o.tax_amount = 0
      ∧ o.status = OrderStatus.paid
      ∧ ∃ item, o.items = [item] ∧ item.amount = 10000 :=
  C4_checkout_custom_price_scenario baseEnv checkoutA customerA "price_1"
    rfl rfl rfl rfl rfl rfl rfl

/-! ### Discount resolution failure (claim C8) -/

/-- C8: when the invoice references an external coupon whose metadata is
missing, or whose metadata's discount id resolves to no internal discount
record, order creation from the invoice fails with the
discount-does-not-exist error. -/
theorem C8_missing_discount_fails (env : Env) (invoice : StripeInvoice)
    (sid : String) (sub : Subscription) (d : StripeDiscount)
    (hpledge : (invoice.metadata.getD []).lookup "type" ≠ some "pledge")
    (hsub : invoice.subscription = some sid)
    (hres : env.getSubscriptionByStripeId sid = some sub)
    (hdisc : invoice.discount = some d)
    (hbad : d.coupon.metadata = none ∨
      ∃ md did, d.coupon.metadata = some md ∧ md.lookup "discount_id" = some did ∧
        env.getDiscountById did = none) :
    create_order_from_stripe env invoice =
      Except.error (OrderErr.discountDoesNotExist invoice.id d.coupon.id) := by
  have hrd : resolve_discount env invoice =
      Except.error (OrderErr.discountDoesNotExist invoice.id d.coupon.id) := by
    unfold resolve_discount
    rcases hbad with hnone | ⟨md, did, hmd, hdid, hlook⟩
    · simp only [hdisc, hnone]
    · simp only [hdisc, hmd, hdid, hlook]
  unfold create_order_from_stripe
  rw [if_neg hpledge]
  simp only [hsub, hres, hrd, bindE]




/-- Witness for C8: a coupon without metadata makes order creation fail. -/
theorem C8_witness :
    create_order_from_stripe envC8 invC8 =
      Except.error (OrderErr.discountDoesNotExist "inv8" "coupon8") :=
  C8_missing_discount_fails envC8 invC8 "sub8" subA
    { coupon := { id := "coupon8", metadata := none } }
    (by decide) rfl rfl rfl (Or.inl rfl)

/-! ### Meter reset events (claim C5) -/

theorem meter_reset_effects_cons (env : Env) (customer : Customer)
    (m : SubscriptionMeterModel) (ms : List SubscriptionMeterModel) :
    meter_reset_effects env customer (m :: ms) =
      (Effect.meterReset m.meter_id ::
        (if 0 < env.getRolloverUnits customer.id m.meter_id then
          [Effect.meterCredited m.meter_id (env.getRolloverUnits customer.id m.meter_id)]
        else [])) ++ meter_reset_effects env customer ms := rfl

theorem meter_reset_count_zero (env : Env) (customer : Customer)
    (meters : List SubscriptionMeterModel) (mid : String)
    (h : mid ∉ meters.map (fun m => m.meter_id)) :
    (meter_reset_effects env customer meters).countP
      (fun e => decide (e = Effect.meterReset mid)) = 0 := by
  revert h
  induction meters with
  | nil => intro _; rfl
  | cons m ms ih =>
    intro h
    simp only [List.map_cons, List.mem_cons, not_or] at h
    obtain ⟨hne, hnot⟩ := h
    rw [meter_reset_effects_cons, List.countP_append, ih hnot]
    by_cases hr : 0 < env.getRolloverUnits customer.id m.meter_id
    · rw [if_pos hr]
      simp [List.countP_cons, Ne.symm hne]
    · rw [if_neg hr]
      simp [List.countP_cons, Ne.symm hne]

theorem meter_reset_count_one (env : Env) (customer : Customer)
    (meters : List SubscriptionMeterModel) (mid : String)
    (hmem : mid ∈ meters.map (fun m => m.meter_id))
    (hnodup : (meters.map (fun m => m.meter_id)).Nodup) :
    (meter_reset_effects env customer meters).countP
      (fun e => decide (e = Effect.meterReset mid)) = 1 := by
  revert hmem hnodup
  induction meters with
  | nil => intro hmem _; cases hmem
  | cons m ms ih =>
    intro hmem hnodup
    simp only [List.map_cons, List.nodup_cons] at hnodup
    obtain ⟨hnotin, hnd⟩ := hnodup
    simp only [List.map_cons, List.mem_cons] at hmem
    rw [meter_reset_effects_cons, List.countP_append]
    rcases hmem with heq | hmem
    · subst heq
      rw [meter_reset_count_zero env customer ms m.meter_id hnotin]
      by_cases hr : 0 < env.getRolloverUnits customer.id m.meter_id
      · rw [if_pos hr]
        simp [List.countP_cons]
      · rw [if_neg hr]
        simp [List.countP_cons]
    · have hne : ¬m.meter_id = mid := by
        intro hh
        exact hnotin (hh ▸ hmem)
      rw [ih hmem hnd]
      by_cases hr : 0 < env.getRolloverUnits customer.id m.meter_id
      · rw [if_pos hr]
        simp [List.countP_cons, hne]
      · rw [if_neg hr]
        simp [List.countP_cons, hne]

theorem meter_credited_mem (env : Env) (customer : Customer)
    (meters : List SubscriptionMeterModel) (mid : String) (u : Int) :
    Effect.meterCredited mid u ∈ meter_reset_effects env customer meters ↔
      ∃ sm, sm ∈ meters ∧ sm.meter_id = mid ∧
        0 < env.getRolloverUnits customer.id sm.meter_id ∧
        u = env.getRolloverUnits customer.id sm.meter_id := by
  unfold meter_reset_effects
  rw [List.mem_flatMap]
  constructor
  · rintro ⟨sm, hsm, hmem⟩
    refine ⟨sm, hsm, ?_⟩
    simp only [List.mem_cons] at hmem
    rcases hmem with h | h
    · cases h
    · by_cases hr : 0 < env.getRolloverUnits customer.id sm.meter_id
      · rw [if_pos hr] at h
        rcases List.mem_singleton.mp h with h'
        injection h' with h1 h2
        exact ⟨h1.symm, hr, h2⟩
      · rw [if_neg hr] at h
        cases h
  · rintro ⟨sm, hsm, hmid, hr, hu⟩
    refine ⟨sm, hsm, ?_⟩
    subst hmid
    subst hu
    rw [if_pos hr]
    exact List.mem_cons_of_mem _ (List.mem_singleton.mpr rfl)

theorem draft_invoice_step_no_meter (env : Env) (invoice : StripeInvoice)
    (sub : Subscription) (customer : Customer) (items : List OrderItem)
    (r : StripeInvoice × List OrderItem × List Effect)
    (h : draft_invoice_step env invoice sub customer items = Except.ok r) :
    ∀ e ∈ r.2.2, isMeterEffect e = false := by
  unfold draft_invoice_step at h
  split at h
  · split at h
    · cases h
    · cases h
      intro e he
      rcases List.mem_singleton.mp he with h'
      subst h'
      rfl
  · cases h
    intro e he
    cases he

theorem _on_order_paid_no_meter (env : Env) (o : Order) (e : List Effect)
    (h : _on_order_paid env o = Except.ok e) :
    ∀ eff ∈ e, isMeterEffect eff = false := by
  unfold _on_order_paid at h
  split at h
  · cases h
    intro eff hmem
    rcases List.mem_append.mp hmem with hm | hm
    · rw [send_webhook_effects env o WebhookType.order_paid eff hm]
      rfl
    · rcases hsubid : o.subscription_id with _ | sid
      · simp only [hsubid] at hm
        cases hm
      · simp only [hsubid] at hm
        by_cases hbr : o.billing_reason = OrderBillingReason.subscription_cycle
        · rw [if_pos hbr] at hm
          rcases List.mem_singleton.mp hm with h'
          subst h'
          rfl
        · rw [if_neg hbr] at hm
          cases hm
  · cases h

theorem _on_order_created_no_meter (env : Env) (o : Order) (e : List Effect)
    (h : _on_order_created env o = Except.ok e) :
    ∀ eff ∈ e, isMeterEffect eff = false := by
  unfold _on_order_created at h
  obtain ⟨pEffs, hp, h'⟩ := bindE_ok h
  cases h'
  intro eff hmem
  rcases List.mem_append.mp hmem with hm | hm
  · rcases List.mem_append.mp hm with hm' | hm'
    · rcases List.mem_append.mp hm' with hw | hd
      · rw [send_webhook_effects env o WebhookType.order_created eff hw]
        rfl
      · rcases List.mem_singleton.mp hd with h''
        subst h''
        rfl
    · revert hm'
      split at hp
      · exact fun hm' => _on_order_paid_no_meter env o pEffs hp eff hm'
      · cases hp
        intro hm'
        cases hm'
  · rcases ho : o.checkout with _ | c <;> rw [ho] at hm
    · cases hm
    · rcases List.mem_singleton.mp hm with h''
      subst h''
      rfl

/-- C5: when an order is created from a subscription invoice, exactly one
`meter_reset` event is recorded for every usage meter attached to the
subscription, and a `meter_credited` event carrying the rollover units is
recorded if and only if the meter's rollover units are strictly positive. -/
theorem C5_meter_reset_events (env : Env) (invoice : StripeInvoice) (sid : String)
    (sub : Subscription) (o : Order) (effs : List Effect)
    (hsub : invoice.subscription = some sid)
    (hres : env.getSubscriptionByStripeId sid = some sub)
    (hnodup : (sub.meters.map (fun m => m.meter_id)).Nodup)
    (hok : create_order_from_stripe env invoice = Except.ok (o, effs)) :
    ∀ sm ∈ sub.meters,
      effs.countP (fun e => decide (e = Effect.meterReset sm.meter_id)) = 1
      ∧ (Effect.meterCredited sm.meter_id
            (env.getRolloverUnits sub.customer.id sm.meter_id) ∈ effs ↔
          0 < env.getRolloverUnits sub.customer.id sm.meter_id)
      ∧ ∀ u, Effect.meterCredited sm.meter_id u ∈ effs →
          u = env.getRolloverUnits sub.customer.id sm.meter_id := by
  by_cases hpl : (invoice.metadata.getD []).lookup "type" = some "pledge"
  · unfold create_order_from_stripe at hok
    rw [if_pos hpl] at hok
    cases hok
  unfold create_order_from_stripe at hok
  rw [if_neg hpl] at hok
  simp only [hsub, hres] at hok
  obtain ⟨disc, hdisc, hok⟩ := bindE_ok hok
  obtain ⟨chk, hchk, hok⟩ := bindE_ok hok
  obtain ⟨draftRes, hdraft, hok⟩ := bindE_ok hok
  obtain ⟨createdEffs, hcreated, hok⟩ := bindE_ok hok
  injection hok with hok'
  injection hok' with ho he
  subst ho
  subst he
  have hd0 : ∀ e ∈ draftRes.2.2, isMeterEffect e = false :=
    draft_invoice_step_no_meter env invoice sub sub.customer
      (build_invoice_items env invoice) draftRes hdraft
  have hc0 : ∀ e ∈ createdEffs, isMeterEffect e = false :=
    _on_order_created_no_meter env _ createdEffs hcreated
  intro sm hsm
  have hmemid : sm.meter_id ∈ sub.meters.map (fun m => m.meter_id) :=
    List.mem_map_of_mem _ hsm
  refine ⟨?_, ?_, ?_⟩
  · rw [List.countP_append, List.countP_append]
    rw [meter_reset_count_one env sub.customer sub.meters sm.meter_id hmemid hnodup]
    have hz1 : draftRes.2.2.countP
        (fun e => decide (e = Effect.meterReset sm.meter_id)) = 0 := by
      rw [List.countP_eq_zero]
      intro a ha hpa
      rw [decide_eq_true_eq] at hpa
      subst hpa
      exact absurd (hd0 _ ha) (by simp [isMeterEffect])
    have hz2 : createdEffs.countP
        (fun e => decide (e = Effect.meterReset sm.meter_id)) = 0 := by
      rw [List.countP_eq_zero]
      intro a ha hpa
      rw [decide_eq_true_eq] at hpa
      subst hpa
      exact absurd (hc0 _ ha) (by simp [isMeterEffect])
    rw [hz1, hz2]
  · constructor
    · intro hmem
      rcases List.mem_append.mp hmem with hm | hm
      · rcases List.mem_append.mp hm with hm' | hm'
        · exact absurd (hd0 _ hm') (by simp [isMeterEffect])
        · obtain ⟨sm', hsm', hmid, hr, hu⟩ :=
            (meter_credited_mem env sub.customer sub.meters sm.meter_id _).mp hm'
          rw [← hmid]
          exact hr
      · exact absurd (hc0 _ hm) (by simp [isMeterEffect])
    · intro hr
      refine List.mem_append.mpr (Or.inl (List.mem_append.mpr (Or.inr ?_)))
      exact (meter_credited_mem env sub.customer sub.meters sm.meter_id _).mpr
        ⟨sm, hsm, rfl, hr, rfl⟩
  · intro u hmem
    rcases List.mem_append.mp hmem with hm | hm
    · rcases List.mem_append.mp hm with hm' | hm'
      · exact absurd (hd0 _ hm') (by simp [isMeterEffect])
      · obtain ⟨sm', hsm', hmid, hr, hu⟩ :=
          (meter_credited_mem env sub.customer sub.meters sm.meter_id u).mp hm'
        rw [hu, hmid]
    · exact absurd (hc0 _ hm) (by simp [isMeterEffect])





/-- Witness for C5: two meters, one with positive rollover (credited) and one
with zero rollover (not credited), each reset exactly once. -/
theorem C5_witness :
    (c5res.2.countP (fun e => decide (e = Effect.meterReset "m1")) = 1
      ∧ (Effect.meterCredited "m1" (envC5.getRolloverUnits subC5.customer.id "m1") ∈
          c5res.2 ↔ 0 < envC5.getRolloverUnits subC5.customer.id "m1"))
    ∧ c5res.2.countP (fun e => decide (e = Effect.meterReset "m2")) = 1 := by
  have h := C5_meter_reset_events envC5 invC5 "sub5" subC5 c5res.1 c5res.2 rfl rfl
    (by decide) rfl
  exact ⟨⟨(h { meter_id := "m1" } (by decide)).1,
    (h { meter_id := "m1" } (by decide)).2.1⟩,
    (h { meter_id := "m2" } (by decide)).1⟩

/-- Witness for C10 at a concrete non-paid order: the update notifier
succeeds and `_on_order_paid` rejects it. -/
theorem C10_witness :
    (∃ e, _on_order_updated baseEnv { orderA with status := OrderStatus.pending }
      OrderStatus.pending = Except.ok e)
    ∧ (_on_order_paid baseEnv { orderA with status := OrderStatus.pending } =
        Except.error OrderErr.assertionFailed ↔
        Order.paid { orderA with status := OrderStatus.pending } = false) := by
  have h := C10_paid_handler_only_on_paid baseEnv
    { orderA with status := OrderStatus.pending } OrderStatus.pending
  exact ⟨h.2.1, h.2.2.1⟩

end Polar
